import Mathlib

/-!
Verification of the FreeFileSync synchronization engine core
(`FreeFileSync/Source/synchronization.cpp`) against its natural-language
specification.

The development shallowly embeds the pure decision logic of the engine:
sync-operation tags, the three-pass scheduler's pass assignment (`getPass`),
work-item expansion (`appendFolderLevelWorkItems`), pass-0 move resolution
(`resolveMoveConflicts`, `createParentFolder`, `sourceWillBeDeleted`),
statistics accounting (`SyncStatistics::processFile`,
`AsyncItemStatReporter`), deletion dispatch
(`DeletionHandling::removeFileWithCallback` / `removeLinkWithCallback`),
the disk-space estimator (`MinimumDiskSpaceNeeded`) and the
significant-difference warning predicate (`significantDifferenceDetected`).

Machine integers of the source (`int`, `int64_t`, `uint64_t` file sizes)
are modelled as `Nat`/`Int`; none of the verified properties involve
overflow behaviour.
-/

namespace FFS

/-- The 15 sync-operation tags (`SyncOperation` in the source). -/
inductive SyncOperation where
  | createNewLeft
  | createNewRight
  | deleteLeft
  | deleteRight
  | overwriteLeft
  | overwriteRight
  | copyMetadataToLeft
  | copyMetadataToRight
  | moveLeftFrom
  | moveLeftTo
  | moveRightFrom
  | moveRightTo
  | doNothing
  | equal
  | unresolvedConflict
deriving DecidableEq, Repr

/-- `SelectedSide` in the source. -/
inductive Side where
  | left
  | right
deriving DecidableEq, Repr

/-- `FolderPairSyncer::PassNo`. -/
inductive PassNo where
  | passZero  -- prepare file moves
  | passOne   -- delete files (or overwrite big ones with smaller ones)
  | passTwo   -- create, modify
  | passNever -- skip item
deriving DecidableEq, Repr

/-- The data of a `FilePair` inspected by `getPass` and the statistics
traversal: the sync-operation tag and the per-side file sizes
(`getFileSize<LEFT_SIDE>`, `getFileSize<RIGHT_SIDE>`). -/
structure FilePairAttrs where
  syncOp    : SyncOperation
  fileSizeL : Nat
  fileSizeR : Nat
deriving DecidableEq, Repr

/-- `FolderPairSyncer::getPass(const FilePair&)`. -/
def getPassFile (file : FilePairAttrs) : PassNo :=
  match file.syncOp with
  | .deleteLeft | .deleteRight => .passOne
  | .overwriteLeft =>
      if file.fileSizeL > file.fileSizeR then .passOne else .passTwo
  | .overwriteRight =>
      if file.fileSizeL < file.fileSizeR then .passOne else .passTwo
  | .moveLeftFrom | .moveRightFrom => .passNever
  | .moveLeftTo | .moveRightTo => .passTwo
  | .createNewLeft | .createNewRight
  | .copyMetadataToLeft | .copyMetadataToRight => .passTwo
  | .doNothing | .equal | .unresolvedConflict => .passNever

/-- `FolderPairSyncer::getPass(const SymlinkPair&)`; only the sync operation
is inspected.  The move cases hit `assert(false)` and fall through to
`PASS_NEVER` in a release build. -/
def getPassLink (op : SyncOperation) : PassNo :=
  match op with
  | .deleteLeft | .deleteRight => .passOne
  | .overwriteLeft | .overwriteRight
  | .createNewLeft | .createNewRight
  | .copyMetadataToLeft | .copyMetadataToRight => .passTwo
  | .moveLeftFrom | .moveRightFrom | .moveLeftTo | .moveRightTo => .passNever
  | .doNothing | .equal | .unresolvedConflict => .passNever

/-- `FolderPairSyncer::getPass(const FolderPair&)`; only the sync operation
is inspected.  The move cases hit `assert(false)` and fall through to
`PASS_NEVER` in a release build. -/
def getPassFolder (op : SyncOperation) : PassNo :=
  match op with
  | .deleteLeft | .deleteRight => .passOne
  | .createNewLeft | .createNewRight
  | .overwriteLeft | .overwriteRight
  | .copyMetadataToLeft | .copyMetadataToRight => .passTwo
  | .moveLeftFrom | .moveRightFrom | .moveLeftTo | .moveRightTo => .passNever
  | .doNothing | .equal | .unresolvedConflict => .passNever

/-- A work item produced by `appendFolderLevelWorkItems`: each C++ closure
captures a reference to one tree item; here the item is identified by the
attributes it carries (the folder's / link's sync operation, the file's
attribute record). -/
inductive WorkItem where
  | syncFolder (op : SyncOperation)
  | prepareFileMove (f : FilePairAttrs)
  | syncFile (f : FilePairAttrs)
  | syncLink (op : SyncOperation)
deriving DecidableEq, Repr

/-- One `ContainerObject` level: its sub-folders (sync operations), sub-files
and sub-links, in source order. -/
structure Container where
  subFolders : List SyncOperation
  subFiles   : List FilePairAttrs
  subLinks   : List SyncOperation
deriving DecidableEq, Repr

/-- `FolderPairSyncer::appendFolderLevelWorkItems`: expand one container into
the work items of the given pass plus the folders queued for deeper
expansion.  Sub-folders matching the pass get a sync-folder item, the rest
are queued for expansion; in pass zero every sub-file gets a
`prepareFileMove` item, otherwise sub-files matching the pass get a
sync-file item; sub-links matching the pass get a sync-link item.  The
freshly appended ranges are reversed so LIFO retrieval yields source order
(starting from empty output vectors, this is a plain reversal). -/
def appendFolderLevelWorkItems (pass : PassNo) (c : Container) :
    List WorkItem × List SyncOperation :=
  let folderItems := c.subFolders.filterMap fun op =>
    if pass = getPassFolder op then some (WorkItem.syncFolder op) else none
  let foldersToProcess := c.subFolders.filterMap fun op =>
    if pass = getPassFolder op then none else some op
  let fileItems := c.subFiles.filterMap fun f =>
    if pass = PassNo.passZero then some (WorkItem.prepareFileMove f)
    else if pass = getPassFile f then some (WorkItem.syncFile f) else none
  let linkItems := c.subLinks.filterMap fun op =>
    if pass = getPassLink op then some (WorkItem.syncLink op) else none
  ((folderItems ++ fileItems ++ linkItems).reverse, foldersToProcess.reverse)

/-- The dispatch of `FolderPairSyncer::prepareFileMove`: the pass-0 closure
acts (calls `resolveMoveConflicts`) only on `SO_MOVE_LEFT_FROM` /
`SO_MOVE_RIGHT_FROM`; every other sync operation falls through the switch
and does nothing. -/
def prepareFileMoveActs (op : SyncOperation) : Bool :=
  match op with
  | .moveLeftFrom | .moveRightFrom => true
  | _ => false

/-- Concrete container used to exhibit the pass-0 dispatch of an
unresolved-conflict file: a single sub-file carrying
`SO_UNRESOLVED_CONFLICT`. -/
def conflictFileContainer : Container :=
  { subFolders := []
    subFiles := [⟨.unresolvedConflict, 100, 100⟩]
    subLinks := [] }

/-- The `sourceWillBeDeleted` lambda of
`FolderPairSyncer::resolveMoveConflicts<side>`: the argument is the sync
operation of the source file's parent when that parent is a `FolderPair`
(`none` when the parent is the base folder).  The switch returns true for
`SO_DELETE_LEFT` and `SO_DELETE_RIGHT` alike; the `side` template parameter
is not consulted. -/
def sourceWillBeDeleted (parentOp : Option SyncOperation) : Bool :=
  match parentOp with
  | some .deleteLeft | some .deleteRight => true
  | _ => false

/-- Modelled from the spec ("true iff source's parent folder has `DELETE_*`
on `side`"): the side-filtered variant of `sourceWillBeDeleted` that the
claim describes, for comparison with the source's side-blind switch. -/
def sourceWillBeDeletedSpec (side : Side) (parentOp : Option SyncOperation) :
    Bool :=
  match side, parentOp with
  | .left, some .deleteLeft => true
  | .right, some .deleteRight => true
  | _, _ => false

/-- `FolderPairSyncer::createParentFolder`: walk up the parent chain (the
list holds, nearest parent first, whether each ancestor `FolderPair`'s name
clashes with a sibling symlink or file); recurse to the top first, then
refuse (return false) at any level whose name clashes.  An empty chain
means the parent is the base folder. -/
def createParentFolder : List Bool → Bool
  | [] => true
  | clash :: above => createParentFolder above && !clash

/-- Outcome of `FolderPairSyncer::resolveMoveConflicts<side>` on a move
pair. -/
inductive MoveResolution where
  | delayToPassTwo -- leave as-is; pass 2 processes the MOVE_*_TO entry
  | twoStepMove    -- `setup2StepMove`: rename to an interim .ffs_tmp name
  | syncNow        -- `synchronizeFile(targetFile)`: move immediately
deriving DecidableEq, Repr

/-- `FolderPairSyncer::resolveMoveConflicts<side>` (pass 0), reduced to its
decision: `parentOp` is the source parent's sync operation (`none` = base
folder), `clashSource`/`clashTarget` are the source/target file name-clash
tests against sibling links and folders, and `targetParentChain` the
target's ancestor clash flags fed to `createParentFolder`. -/
def resolveMoveConflicts (parentOp : Option SyncOperation)
    (clashSource clashTarget : Bool) (targetParentChain : List Bool) :
    MoveResolution :=
  if sourceWillBeDeleted parentOp || clashSource then
    if clashTarget || !createParentFolder targetParentChain then
      .twoStepMove
    else
      .syncNow
  else
    .delayToPassTwo

/-- The accumulator of the `SyncStatistics` traversal: per-side counts of
creates/updates/deletes, the number of collected conflict messages, the
pending byte volume (`bytesToProcess_`, an `int64_t`), the row total and
the physical-delete flags. -/
structure SyncStats where
  createLeft          : Nat
  createRight         : Nat
  updateLeft          : Nat
  updateRight         : Nat
  deleteLeft          : Nat
  deleteRight         : Nat
  conflictCount       : Nat
  bytesToProcess      : Int
  rowsTotal           : Nat
  physicalDeleteLeft  : Bool
  physicalDeleteRight : Bool
deriving DecidableEq, Repr

/-- `SyncStatistics::createCount()` (left + right). -/
def SyncStats.createCount (s : SyncStats) : Nat := s.createLeft + s.createRight

/-- `SyncStatistics::updateCount()` (left + right). -/
def SyncStats.updateCount (s : SyncStats) : Nat := s.updateLeft + s.updateRight

/-- `SyncStatistics::deleteCount()` (left + right). -/
def SyncStats.deleteCount (s : SyncStats) : Nat := s.deleteLeft + s.deleteRight

/-- `SyncStatistics::processFile`: update the statistics for one file pair.
Copies and overwrites add the *source* side's current file size to the
pending byte volume; `MOVE_*_TO` counts one update and no bytes;
`MOVE_*_FROM` is ignored (already counted via its TO partner). -/
def processFile (f : FilePairAttrs) (s : SyncStats) : SyncStats :=
  match f.syncOp with
  | .createNewLeft =>
      { s with createLeft := s.createLeft + 1
               bytesToProcess := s.bytesToProcess + f.fileSizeR }
  | .createNewRight =>
      { s with createRight := s.createRight + 1
               bytesToProcess := s.bytesToProcess + f.fileSizeL }
  | .deleteLeft =>
      { s with deleteLeft := s.deleteLeft + 1, physicalDeleteLeft := true }
  | .deleteRight =>
      { s with deleteRight := s.deleteRight + 1, physicalDeleteRight := true }
  | .moveLeftTo => { s with updateLeft := s.updateLeft + 1 }
  | .moveRightTo => { s with updateRight := s.updateRight + 1 }
  | .moveLeftFrom | .moveRightFrom => s -- ignore; already counted
  | .overwriteLeft =>
      { s with updateLeft := s.updateLeft + 1
               bytesToProcess := s.bytesToProcess + f.fileSizeR
               physicalDeleteLeft := true }
  | .overwriteRight =>
      { s with updateRight := s.updateRight + 1
               bytesToProcess := s.bytesToProcess + f.fileSizeL
               physicalDeleteRight := true }
  | .unresolvedConflict =>
      { s with conflictCount := s.conflictCount + 1 }
  | .copyMetadataToLeft => { s with updateLeft := s.updateLeft + 1 }
  | .copyMetadataToRight => { s with updateRight := s.updateRight + 1 }
  | .doNothing | .equal => s

/-- `significantDifferenceDetected`: initial file copying (creates on one
side only, nothing else pending) is not a major difference; otherwise the
non-matching rows are the creates plus deletes, and the warning fires when
they number at least 10 and exceed half of the total row count.  The C++
comparison `nonMatchingRows > 0.5 * rowCount()` is over exact small-integer
doubles and therefore equals `2 * nonMatchingRows > rowCount`. -/
def significantDifferenceDetected (s : SyncStats) : Bool :=
  if (s.createLeft = 0 ∨ s.createRight = 0) ∧ s.updateCount = 0 ∧
      s.deleteCount = 0 ∧ s.conflictCount = 0 then
    false
  else
    let nonMatchingRows := s.createCount + s.deleteCount
    decide (10 ≤ nonMatchingRows ∧ 2 * nonMatchingRows > s.rowsTotal)

/-- `DeletionPolicy` in the source. -/
inductive DeletionPolicy where
  | permanent
  | recycler
  | versioning
deriving DecidableEq, Repr

/-- `AFS::TEMP_FILE_ENDING`, the reserved temporary-file suffix
(".ffs_tmp"); relative paths are modelled as character lists. -/
def TEMP_FILE_ENDING : List Char := ".ffs_tmp".toList

/-- The abstract-filesystem call selected by a removal. -/
inductive RemovalAction where
  | removeFileIfExists    -- permanent file deletion
  | recycleItem           -- move to the recycle bin
  | revisionFile          -- move a file to the versioning folder
  | removeSymlinkIfExists -- permanent symlink deletion
  | revisionSymlink       -- move a symlink to the versioning folder
deriving DecidableEq, Repr

/-- `DeletionHandling::removeFileWithCallback`, reduced to the
filesystem call it makes: relative paths ending with the reserved
temporary suffix are always deleted permanently; otherwise the call
dispatches on the deletion policy. -/
def removeFileAction (policy : DeletionPolicy) (relPath : List Char) :
    RemovalAction :=
  if TEMP_FILE_ENDING.isSuffixOf relPath then
    .removeFileIfExists
  else
    match policy with
    | .permanent => .removeFileIfExists
    | .recycler => .recycleItem
    | .versioning => .revisionFile

/-- The `reportDelta` events emitted by `removeFileWithCallback` *before*
its final unconditional report: only the versioning branch of a
non-temp-suffix path emits per-chunk `(0, bytesDelta)` events through
`notifyUnbufferedIO` during `revisionFile`; `versioningIoBytes` abstracts
that I/O trace. -/
def removeFileIoDeltas (policy : DeletionPolicy) (relPath : List Char)
    (versioningIoBytes : List Int) : List (Int × Int) :=
  if TEMP_FILE_ENDING.isSuffixOf relPath then []
  else
    match policy with
    | .permanent => []
    | .recycler => []
    | .versioning => versioningIoBytes.map fun b => ((0 : Int), b)

/-- All `reportDelta` events of one non-throwing
`removeFileWithCallback` call: the policy-dependent I/O events followed by
the unconditional final `reportDelta(1, 0)`.  `existedOnDisk` records
whether the item still existed; the underlying calls
(`removeFileIfExists`, `recycleItem`, `revisionFile`) succeed either way
and the emitted events do not depend on it. -/
def removeFileDeltas (policy : DeletionPolicy) (relPath : List Char)
    (versioningIoBytes : List Int) (_existedOnDisk : Bool) :
    List (Int × Int) :=
  removeFileIoDeltas policy relPath versioningIoBytes ++ [((1 : Int), (0 : Int))]

/-- All `reportDelta` events of one non-throwing
`removeLinkWithCallback` call: no branch of the policy switch reports
anything (`removeSymlinkIfExists` / `recycleItem` / `revisionSymlink` run
without stat callbacks), then the unconditional `reportDelta(1, 0)`. -/
def removeLinkDeltas (policy : DeletionPolicy) (_existedOnDisk : Bool) :
    List (Int × Int) :=
  (match policy with
   | .permanent => []
   | .recycler => []
   | .versioning => []) ++ [((1 : Int), (0 : Int))]

/-- The mutable fields of `AsyncItemStatReporter`. -/
structure StatReporterState where
  itemsReported : Int
  bytesReported : Int
  itemsExpected : Int
  bytesExpected : Int
deriving DecidableEq, Repr

/-- A call to the two additive counters of `AsyncCallback`. -/
inductive StatCall where
  | updateDataProcessed (itemsDelta bytesDelta : Int)
  | updateDataTotal (itemsDelta bytesDelta : Int)
deriving DecidableEq, Repr

/-- The `AsyncItemStatReporter` constructor: expected totals recorded,
nothing reported yet. -/
def initStatReporter (itemsExpected bytesExpected : Int) :
    StatReporterState :=
  ⟨0, 0, itemsExpected, bytesExpected⟩

/-- `AsyncItemStatReporter::reportDelta`: forward the delta to
`updateDataProcessed`, accumulate it, then clamp each reported value at its
expectation, immediately adding any excess to `updateDataTotal` (so the
percentage display never transiently exceeds 100%). -/
def reportDelta (s : StatReporterState) (itemsDelta bytesDelta : Int) :
    StatReporterState × List StatCall :=
  let ir := s.itemsReported + itemsDelta
  let br := s.bytesReported + bytesDelta
  let itemsCorrection : List StatCall :=
    if ir > s.itemsExpected then
      [.updateDataTotal (ir - s.itemsExpected) 0]
    else []
  let ir2 := if ir > s.itemsExpected then s.itemsExpected else ir
  let bytesCorrection : List StatCall :=
    if br > s.bytesExpected then
      [.updateDataTotal 0 (br - s.bytesExpected)]
    else []
  let br2 := if br > s.bytesExpected then s.bytesExpected else br
  ({ s with itemsReported := ir2, bytesReported := br2 },
   .updateDataProcessed itemsDelta bytesDelta ::
     (itemsCorrection ++ bytesCorrection))

/-- The `AsyncItemStatReporter` destructor: on scope failure (destruction
during exception unwinding) add the already-reported deltas back to the
total; on normal exit correct the total by reported minus expected. -/
def statReporterDestructorCall (s : StatReporterState) (scopeFail : Bool) :
    StatCall :=
  if scopeFail then
    .updateDataTotal s.itemsReported s.bytesReported
  else
    .updateDataTotal (s.itemsReported - s.itemsExpected)
      (s.bytesReported - s.bytesExpected)

/-- The per-file switch of `MinimumDiskSpaceNeeded::recurse`, threading the
`(spaceNeededLeft_, spaceNeededRight_)` accumulator: `CREATE_*` adds the
other (source) side's size to the created side, `DELETE_*` subtracts the
deleted side's own size, `OVERWRITE_*` subtracts the old target-side size
and adds the source-side size; every other operation (moves, metadata
copies, conflicts, nothing/equal) leaves the accumulator unchanged. -/
def fileSpaceDelta (f : FilePairAttrs) (space : Int × Int) : Int × Int :=
  match f.syncOp with
  | .createNewLeft  => (space.1 + f.fileSizeR, space.2)
  | .createNewRight => (space.1, space.2 + f.fileSizeL)
  | .deleteLeft     => (space.1 - f.fileSizeL, space.2)
  | .deleteRight    => (space.1, space.2 - f.fileSizeR)
  | .overwriteLeft  => (space.1 - f.fileSizeL + f.fileSizeR, space.2)
  | .overwriteRight => (space.1, space.2 - f.fileSizeR + f.fileSizeL)
  | .doNothing | .equal | .unresolvedConflict
  | .copyMetadataToLeft | .copyMetadataToRight
  | .moveLeftFrom | .moveRightFrom | .moveLeftTo | .moveRightTo => space

/-- A `ContainerObject` hierarchy as traversed by the disk-space estimator:
each level carries its own sync operation (never inspected by the
estimator), its files, its symlinks (skipped by the estimator — the
symlink section of `recurse` is commented out in the source) and its
sub-folders. -/
inductive FolderTree where
  | mk (syncOp : SyncOperation) (files : List FilePairAttrs)
      (links : List SyncOperation) (folders : List FolderTree)

mutual

/-- `MinimumDiskSpaceNeeded::recurse`: fold the per-file deltas of this
level, then recurse into the sub-folders; directories and symlinks
themselves are not processed. -/
def minimumDiskSpaceTree : FolderTree → Int × Int → Int × Int
  | .mk _ files _ folders, space =>
      minimumDiskSpaceList folders
        (files.foldl (fun acc f => fileSpaceDelta f acc) space)

/-- Recursion of `MinimumDiskSpaceNeeded::recurse` over a sub-folder
list. -/
def minimumDiskSpaceList : List FolderTree → Int × Int → Int × Int
  | [], space => space
  | t :: ts, space => minimumDiskSpaceList ts (minimumDiskSpaceTree t space)

end

/-- `MinimumDiskSpaceNeeded::calculate`: run the traversal from the base
folder with zeroed accumulators. -/
def minimumDiskSpaceNeeded (baseFolder : FolderTree) : Int × Int :=
  minimumDiskSpaceTree baseFolder (0, 0)

end FFS

/-- C1: for every file pair, `getPass` assigns: pass 1 to `DELETE_*`;
for `OVERWRITE_LEFT` pass 1 exactly when the left size strictly exceeds the
right size, else pass 2, and symmetrically for `OVERWRITE_RIGHT`; pass 2 to
`MOVE_*_TO`, `CREATE_*` and `COPY_METADATA_*`; and no pass to `MOVE_*_FROM`,
`DO_NOTHING`, `EQUAL`, `UNRESOLVED_CONFLICT`.  For symlink and folder pairs,
`DELETE_*` maps to pass 1 and every other dispatched operation
(`OVERWRITE_*`, `CREATE_*`, `COPY_METADATA_*`) maps to pass 2. -/
theorem FFS.getPass_assignment (l r : Nat) :
    (FFS.getPassFile ⟨.deleteLeft, l, r⟩ = .passOne ∧
     FFS.getPassFile ⟨.deleteRight, l, r⟩ = .passOne) ∧
    (FFS.getPassFile ⟨.overwriteLeft, l, r⟩ =
        (if l > r then .passOne else .passTwo) ∧
     FFS.getPassFile ⟨.overwriteRight, l, r⟩ =
        (if r > l then .passOne else .passTwo)) ∧
    (FFS.getPassFile ⟨.moveLeftTo, l, r⟩ = .passTwo ∧
     FFS.getPassFile ⟨.moveRightTo, l, r⟩ = .passTwo ∧
     FFS.getPassFile ⟨.createNewLeft, l, r⟩ = .passTwo ∧
     FFS.getPassFile ⟨.createNewRight, l, r⟩ = .passTwo ∧
     FFS.getPassFile ⟨.copyMetadataToLeft, l, r⟩ = .passTwo ∧
     FFS.getPassFile ⟨.copyMetadataToRight, l, r⟩ = .passTwo) ∧
    (FFS.getPassFile ⟨.moveLeftFrom, l, r⟩ = .passNever ∧
     FFS.getPassFile ⟨.moveRightFrom, l, r⟩ = .passNever ∧
     FFS.getPassFile ⟨.doNothing, l, r⟩ = .passNever ∧
     FFS.getPassFile ⟨.equal, l, r⟩ = .passNever ∧
     FFS.getPassFile ⟨.unresolvedConflict, l, r⟩ = .passNever) ∧
    (∀ op : FFS.SyncOperation,
      (FFS.getPassLink op = .passOne ↔
        (op = .deleteLeft ∨ op = .deleteRight)) ∧
      (FFS.getPassFolder op = .passOne ↔
        (op = .deleteLeft ∨ op = .deleteRight)) ∧
      (FFS.getPassLink op = .passTwo ↔
        (op = .overwriteLeft ∨ op = .overwriteRight ∨
         op = .createNewLeft ∨ op = .createNewRight ∨
         op = .copyMetadataToLeft ∨ op = .copyMetadataToRight)) ∧
      (FFS.getPassFolder op = .passTwo ↔
        (op = .overwriteLeft ∨ op = .overwriteRight ∨
         op = .createNewLeft ∨ op = .createNewRight ∨
         op = .copyMetadataToLeft ∨ op = .copyMetadataToRight))) := by
  refine ⟨⟨rfl, rfl⟩, ⟨rfl, rfl⟩, ⟨rfl, rfl, rfl, rfl, rfl, rfl⟩,
    ⟨rfl, rfl, rfl, rfl, rfl⟩, ?_⟩
  intro op
  cases op <;> simp [FFS.getPassLink, FFS.getPassFolder]

/-- Helper: characterization of the work items produced by
`appendFolderLevelWorkItems`. -/
theorem FFS.mem_appendFolderLevelWorkItems
    (p : FFS.PassNo) (c : FFS.Container) (w : FFS.WorkItem) :
    w ∈ (FFS.appendFolderLevelWorkItems p c).1 ↔
      (∃ op, op ∈ c.subFolders ∧ p = FFS.getPassFolder op ∧
        w = .syncFolder op) ∨
      (∃ f, f ∈ c.subFiles ∧
        ((p = .passZero ∧ w = .prepareFileMove f) ∨
         (¬p = .passZero ∧ p = FFS.getPassFile f ∧ w = .syncFile f))) ∨
      (∃ op, op ∈ c.subLinks ∧ p = FFS.getPassLink op ∧ w = .syncLink op) := by
  simp only [FFS.appendFolderLevelWorkItems, List.mem_reverse,
    List.mem_append, List.mem_filterMap]
  rw [or_assoc]
  refine or_congr ?_ (or_congr ?_ ?_)
  · constructor
    · rintro ⟨a, ha, hfa⟩
      split_ifs at hfa with hc
      exact ⟨a, ha, hc, (Option.some.inj hfa).symm⟩
    · rintro ⟨a, ha, hc, rfl⟩
      exact ⟨a, ha, by rw [if_pos hc]⟩
  · constructor
    · rintro ⟨a, ha, hfa⟩
      split_ifs at hfa with h0 hc
      · exact ⟨a, ha, Or.inl ⟨h0, (Option.some.inj hfa).symm⟩⟩
      · exact ⟨a, ha, Or.inr ⟨h0, hc, (Option.some.inj hfa).symm⟩⟩
    · rintro ⟨a, ha, (⟨h0, rfl⟩ | ⟨h0, hc, rfl⟩)⟩
      · exact ⟨a, ha, by rw [if_pos h0]⟩
      · exact ⟨a, ha, by rw [if_neg h0, if_pos hc]⟩
  · constructor
    · rintro ⟨a, ha, hfa⟩
      split_ifs at hfa with hc
      exact ⟨a, ha, hc, (Option.some.inj hfa).symm⟩
    · rintro ⟨a, ha, hc, rfl⟩
      exact ⟨a, ha, by rw [if_pos hc]⟩

/-- C2 counterexample: the claim says no work item referring to an
`UNRESOLVED_CONFLICT` item is ever placed into a workload bucket in any of
the three passes.  But in pass 0 `appendFolderLevelWorkItems` enqueues a
`prepareFileMove` work item for *every* sub-file, including one whose sync
operation is `UNRESOLVED_CONFLICT`. -/
theorem FFS.conflict_file_pass0_work_item_exists :
    (FFS.conflictFileContainer.subFiles.map (fun f => f.syncOp) =
      [FFS.SyncOperation.unresolvedConflict]) ∧
    FFS.WorkItem.prepareFileMove ⟨.unresolvedConflict, 100, 100⟩ ∈
      (FFS.appendFolderLevelWorkItems .passZero FFS.conflictFileContainer).1 := by
  decide

/-- C2 amended: an `UNRESOLVED_CONFLICT` item never receives a
synchronization work item in any of the three passes (conflict folders and
symlinks receive no work item at all, conflict files no sync-file item);
the only work item referring to a conflict file is the pass-0
`prepareFileMove` closure, which is enqueued for every sub-file and whose
dispatch ignores `UNRESOLVED_CONFLICT` (it acts only on `MOVE_*_FROM`). -/
theorem FFS.conflict_items_never_synchronized
    (c : FFS.Container) (p : FFS.PassNo) (f : FFS.FilePairAttrs)
    (hp : p ≠ .passNever) (hf : f.syncOp = .unresolvedConflict) :
    FFS.WorkItem.syncFolder .unresolvedConflict ∉
      (FFS.appendFolderLevelWorkItems p c).1 ∧
    FFS.WorkItem.syncLink .unresolvedConflict ∉
      (FFS.appendFolderLevelWorkItems p c).1 ∧
    FFS.WorkItem.syncFile f ∉ (FFS.appendFolderLevelWorkItems p c).1 ∧
    (FFS.WorkItem.prepareFileMove f ∈ (FFS.appendFolderLevelWorkItems p c).1 ↔
      (p = .passZero ∧ f ∈ c.subFiles)) ∧
    FFS.prepareFileMoveActs f.syncOp = false := by
  have hfile : FFS.getPassFile f = .passNever := by
    simp [FFS.getPassFile, hf]
  refine ⟨?_, ?_, ?_, ?_, by rw [hf]; rfl⟩
  · rw [FFS.mem_appendFolderLevelWorkItems]
    rintro (⟨op, _, hpass, heq⟩ | ⟨g, _, (⟨_, heq⟩ | ⟨_, _, heq⟩)⟩ |
      ⟨op, _, _, heq⟩) <;> try exact FFS.WorkItem.noConfusion heq
    injection heq with h2
    rw [← h2] at hpass
    exact hp hpass
  · rw [FFS.mem_appendFolderLevelWorkItems]
    rintro (⟨op, _, hpass, heq⟩ | ⟨g, _, (⟨_, heq⟩ | ⟨_, _, heq⟩)⟩ |
      ⟨op, _, hpass, heq⟩) <;> try exact FFS.WorkItem.noConfusion heq
    injection heq with h2
    rw [← h2] at hpass
    exact hp hpass
  · rw [FFS.mem_appendFolderLevelWorkItems]
    rintro (⟨op, _, hpass, heq⟩ | ⟨g, _, (⟨_, heq⟩ | ⟨_, hpass, heq⟩)⟩ |
      ⟨op, _, _, heq⟩) <;> try exact FFS.WorkItem.noConfusion heq
    injection heq with h2
    rw [← h2, hfile] at hpass
    exact hp hpass
  · rw [FFS.mem_appendFolderLevelWorkItems]
    constructor
    · rintro (⟨op, _, hpass, heq⟩ | ⟨g, hg, (⟨h0, heq⟩ | ⟨_, _, heq⟩)⟩ |
        ⟨op, _, _, heq⟩) <;> try exact FFS.WorkItem.noConfusion heq
      injection heq with h2
      rw [← h2] at hg
      exact ⟨h0, hg⟩
    · rintro ⟨h0, hmem⟩
      exact Or.inr (Or.inl ⟨f, hmem, Or.inl ⟨h0, rfl⟩⟩)

/-- C2 amended, witness: at the concrete conflict-file container, in pass
one the conflict file receives no work item at all, and the pass-0
`prepareFileMove` dispatch ignores its sync operation. -/
theorem FFS.conflict_items_never_synchronized_witness :
    FFS.WorkItem.syncFile ⟨.unresolvedConflict, 100, 100⟩ ∉
      (FFS.appendFolderLevelWorkItems .passOne FFS.conflictFileContainer).1 ∧
    FFS.prepareFileMoveActs FFS.SyncOperation.unresolvedConflict = false := by
  have h := FFS.conflict_items_never_synchronized FFS.conflictFileContainer
    .passOne ⟨.unresolvedConflict, 100, 100⟩ (by decide) rfl
  exact ⟨h.2.2.1, h.2.2.2.2⟩

/-- C3 counterexample: with the source's parent scheduled for deletion, no
name clash on either the source or the target file, but an ancestor of the
target whose name clashes (so `createParentFolder` refuses),
`resolveMoveConflicts` sets up the 2-step move — it does not synchronize
the move immediately from the target side as the claim states. -/
theorem FFS.parent_chain_refusal_is_not_synced_immediately :
    (FFS.sourceWillBeDeleted (some .deleteLeft) || false) = true ∧
    FFS.createParentFolder [true] = false ∧
    FFS.resolveMoveConflicts (some .deleteLeft) false false [true] =
      .twoStepMove ∧
    FFS.MoveResolution.twoStepMove ≠ FFS.MoveResolution.syncNow := by
  decide

/-- C3 amended: whenever the move must be prepared immediately
(`sourceWillBeDeleted` holds or the source name clashes) and
`createParentFolder` refuses because some ancestor folder's name clashes,
the engine sets up the 2-step move (`setup2StepMove`) — the same path taken
on a target name clash — even when the target file's own name does not
clash; the immediate target-side synchronization happens only when the
target does not clash *and* the parent chain was created. -/
theorem FFS.parent_chain_refusal_two_step
    (parentOp : Option FFS.SyncOperation) (clashSource clashTarget : Bool)
    (chain : List Bool)
    (h1 : (FFS.sourceWillBeDeleted parentOp || clashSource) = true)
    (h3 : FFS.createParentFolder chain = false) :
    FFS.resolveMoveConflicts parentOp clashSource clashTarget chain =
      .twoStepMove ∧
    (clashTarget = false →
      (FFS.resolveMoveConflicts parentOp clashSource clashTarget chain =
          .syncNow ↔ False)) := by
  refine ⟨?_, fun _ => by simp [FFS.resolveMoveConflicts, h1, h3]⟩
  simp [FFS.resolveMoveConflicts, h1, h3]

/-- C3 amended, witness: the concrete refusal scenario of the
counterexample runs through the amended theorem. -/
theorem FFS.parent_chain_refusal_two_step_witness :
    FFS.resolveMoveConflicts (some .deleteLeft) false false [true] =
      FFS.MoveResolution.twoStepMove :=
  (FFS.parent_chain_refusal_two_step (some .deleteLeft) false false [true]
    (by decide) (by decide)).1

/-- C4 counterexample: for side = LEFT and a source parent folder carrying
`SO_DELETE_RIGHT`, the source's `sourceWillBeDeleted` switch yields true,
while the claim (side-filtered) demands false. -/
theorem FFS.sourceWillBeDeleted_ignores_side :
    FFS.sourceWillBeDeleted (some .deleteRight) = true ∧
    FFS.sourceWillBeDeletedSpec .left (some .deleteRight) = false := by
  decide

/-- C4 amended: `sourceWillBeDeleted` is true iff the source file's parent
is a `FolderPair` carrying `SO_DELETE_LEFT` *or* `SO_DELETE_RIGHT` —
deletion on either side, not only on the move's `side`; it is false for
every other parent operation and when the parent is the base folder. -/
theorem FFS.sourceWillBeDeleted_characterization
    (parentOp : Option FFS.SyncOperation) :
    FFS.sourceWillBeDeleted parentOp = true ↔
      (parentOp = some .deleteLeft ∨ parentOp = some .deleteRight) := by
  rcases parentOp with _ | op
  · simp [FFS.sourceWillBeDeleted]
  · cases op <;> simp [FFS.sourceWillBeDeleted]

/-- C5: `SyncStatistics::processFile` adds the *source* side's current file
size to the pending byte volume for copies and overwrites (right-side size
for `CREATE_NEW_LEFT` / `OVERWRITE_LEFT`, left-side size for
`CREATE_NEW_RIGHT` / `OVERWRITE_RIGHT`); `MOVE_*_FROM` contributes neither
items nor bytes (the statistics are unchanged), while `MOVE_*_TO`
contributes exactly one update count on its side and zero bytes. -/
theorem FFS.processFile_byte_accounting (s : FFS.SyncStats) (l r : Nat) :
    (FFS.processFile ⟨.createNewLeft, l, r⟩ s).bytesToProcess =
      s.bytesToProcess + r ∧
    (FFS.processFile ⟨.overwriteLeft, l, r⟩ s).bytesToProcess =
      s.bytesToProcess + r ∧
    (FFS.processFile ⟨.createNewRight, l, r⟩ s).bytesToProcess =
      s.bytesToProcess + l ∧
    (FFS.processFile ⟨.overwriteRight, l, r⟩ s).bytesToProcess =
      s.bytesToProcess + l ∧
    FFS.processFile ⟨.moveLeftFrom, l, r⟩ s = s ∧
    FFS.processFile ⟨.moveRightFrom, l, r⟩ s = s ∧
    FFS.processFile ⟨.moveLeftTo, l, r⟩ s =
      { s with updateLeft := s.updateLeft + 1 } ∧
    FFS.processFile ⟨.moveRightTo, l, r⟩ s =
      { s with updateRight := s.updateRight + 1 } :=
  ⟨rfl, rfl, rfl, rfl, rfl, rfl, rfl, rfl⟩

/-- C10: `significantDifferenceDetected` returns false whenever the create
count on at least one side is zero and the update, delete and conflict
counts are all zero; otherwise it returns true iff the creates plus deletes
number at least 10 and exceed half of the total row count. -/
theorem FFS.significantDifferenceDetected_threshold (s : FFS.SyncStats) :
    (((s.createLeft = 0 ∨ s.createRight = 0) ∧ s.updateCount = 0 ∧
        s.deleteCount = 0 ∧ s.conflictCount = 0) →
      FFS.significantDifferenceDetected s = false) ∧
    (¬((s.createLeft = 0 ∨ s.createRight = 0) ∧ s.updateCount = 0 ∧
        s.deleteCount = 0 ∧ s.conflictCount = 0) →
      (FFS.significantDifferenceDetected s = true ↔
        (10 ≤ s.createCount + s.deleteCount ∧
         2 * (s.createCount + s.deleteCount) > s.rowsTotal))) := by
  constructor
  · intro h
    simp [FFS.significantDifferenceDetected, h]
  · intro h
    simp [FFS.significantDifferenceDetected, h]

/-- C10 witness: a one-sided initial copy (five creates on the right, all
else zero) raises no warning; 6 + 6 creates with zero deletes over 20 rows
(12 ≥ 10 and 24 > 20) raises it. -/
theorem FFS.significantDifferenceDetected_threshold_witness :
    FFS.significantDifferenceDetected
      ⟨0, 5, 0, 0, 0, 0, 0, 0, 5, false, false⟩ = false ∧
    FFS.significantDifferenceDetected
      ⟨6, 6, 0, 0, 0, 0, 0, 0, 20, false, false⟩ = true :=
  ⟨(FFS.significantDifferenceDetected_threshold
      ⟨0, 5, 0, 0, 0, 0, 0, 0, 5, false, false⟩).1 (by decide),
   ((FFS.significantDifferenceDetected_threshold
      ⟨6, 6, 0, 0, 0, 0, 0, 0, 20, false, false⟩).2 (by decide)).mpr
     (by decide)⟩

/-- Helper: every pre-final event of `removeFileWithCallback` carries a
zero items delta. -/
theorem FFS.removeFileIoDeltas_items_zero (policy : FFS.DeletionPolicy)
    (relPath : List Char) (ioBytes : List Int) :
    ∀ e ∈ FFS.removeFileIoDeltas policy relPath ioBytes, e.1 = 0 := by
  intro e he
  unfold FFS.removeFileIoDeltas at he
  split_ifs at he with h
  · simp at he
  · cases policy
    · simp at he
    · simp at he
    · simp only [List.mem_map] at he
      obtain ⟨b, _, hb⟩ := he
      rw [← hb]

/-- Helper: a zero-items-delta event list followed by the single `(1, 0)`
event contains `(1, 0)` exactly once. -/
theorem FFS.count_final_delta (pre : List (Int × Int))
    (hpre : ∀ e ∈ pre, e.1 = 0) :
    (pre ++ [((1 : Int), (0 : Int))]).count ((1 : Int), (0 : Int)) = 1 := by
  rw [List.count_append]
  have h0 : pre.count ((1 : Int), (0 : Int)) = 0 := by
    rw [List.count_eq_zero]
    intro hmem
    have h1 := hpre _ hmem
    simp at h1
  rw [h0]
  decide

/-- C7: every non-throwing `removeFileWithCallback` and
`removeLinkWithCallback` call emits exactly one `(itemsDelta = +1,
bytesDelta = 0)` accounting event, for every deletion policy, independently
of whether the item still existed on disk; every other emitted event has a
zero items delta (the versioning byte-progress callbacks). -/
theorem FFS.removal_reports_one_item_delta (policy : FFS.DeletionPolicy)
    (relPath : List Char) (versioningIoBytes : List Int)
    (existedOnDisk : Bool) :
    (FFS.removeFileDeltas policy relPath versioningIoBytes
        existedOnDisk).count ((1 : Int), (0 : Int)) = 1 ∧
    (∀ e ∈ FFS.removeFileDeltas policy relPath versioningIoBytes
        existedOnDisk, e = ((1 : Int), (0 : Int)) ∨ e.1 = 0) ∧
    (FFS.removeLinkDeltas policy existedOnDisk).count
        ((1 : Int), (0 : Int)) = 1 ∧
    (∀ e ∈ FFS.removeLinkDeltas policy existedOnDisk,
        e = ((1 : Int), (0 : Int))) ∧
    FFS.removeFileDeltas policy relPath versioningIoBytes true =
      FFS.removeFileDeltas policy relPath versioningIoBytes false := by
  refine ⟨FFS.count_final_delta _
    (FFS.removeFileIoDeltas_items_zero policy relPath versioningIoBytes),
    ?_, ?_, ?_, rfl⟩
  · intro e he
    rw [FFS.removeFileDeltas, List.mem_append] at he
    rcases he with he | he
    · exact Or.inr
        (FFS.removeFileIoDeltas_items_zero policy relPath versioningIoBytes
          e he)
    · simp at he
      exact Or.inl he
  · cases policy <;> rfl
  · intro e he
    cases policy <;> simpa [FFS.removeLinkDeltas] using he

/-- C8: `AsyncItemStatReporter`: `reportDelta(i, b)` forwards `(i, b)` to
`updateDataProcessed` (it is the first emitted call); the destructor on a
normal scope exit calls `updateDataTotal(itemsReported - itemsExpected,
bytesReported - bytesExpected)`, and during exception unwinding it calls
`updateDataTotal(itemsReported, bytesReported)`. -/
theorem FFS.statReporter_accounting (s : FFS.StatReporterState)
    (i b : Int) :
    (FFS.reportDelta s i b).2.head? =
      some (.updateDataProcessed i b) ∧
    FFS.statReporterDestructorCall s false =
      .updateDataTotal (s.itemsReported - s.itemsExpected)
        (s.bytesReported - s.bytesExpected) ∧
    FFS.statReporterDestructorCall s true =
      .updateDataTotal s.itemsReported s.bytesReported :=
  ⟨rfl, rfl, rfl⟩

/-- C6: files whose relative path ends with the reserved temporary suffix
are always removed permanently (`removeFileIfExists`) regardless of the
deletion policy — in particular not versioned under VERSIONING — while
every other path dispatches on the policy. -/
theorem FFS.removeFile_temp_suffix_always_permanent
    (policy : FFS.DeletionPolicy) (relPath : List Char) :
    (FFS.TEMP_FILE_ENDING.isSuffixOf relPath = true →
      FFS.removeFileAction policy relPath = .removeFileIfExists) ∧
    (FFS.TEMP_FILE_ENDING.isSuffixOf relPath = false →
      FFS.removeFileAction policy relPath =
        (match policy with
         | .permanent => .removeFileIfExists
         | .recycler => .recycleItem
         | .versioning => .revisionFile)) := by
  constructor <;> intro h <;> simp [FFS.removeFileAction, h]

/-- C6 witness: a `.ffs_tmp` path under the VERSIONING policy is deleted
permanently, while an ordinary path under VERSIONING is revisioned. -/
theorem FFS.removeFile_temp_suffix_always_permanent_witness :
    FFS.removeFileAction .versioning ("x.ffs_tmp".toList) =
      .removeFileIfExists ∧
    FFS.removeFileAction .versioning ("x.txt".toList) = .revisionFile :=
  ⟨(FFS.removeFile_temp_suffix_always_permanent .versioning
      ("x.ffs_tmp".toList)).1 (by decide),
   (FFS.removeFile_temp_suffix_always_permanent .versioning
      ("x.txt".toList)).2 (by decide)⟩

/-- C9: the disk-space estimator computes the per-side net byte deltas from
files only: `CREATE_*` on a side adds the other (source) side's file size
to that side, `DELETE_*` subtracts that side's own file size,
`OVERWRITE_*` subtracts the old target-side size and adds the source-side
size, every other operation contributes zero, and neither the symlinks of
a level nor a folder's own sync operation influence the result. -/
theorem FFS.minimumDiskSpaceNeeded_accounting (space : Int × Int)
    (l r : Nat) (op op2 : FFS.SyncOperation)
    (files : List FFS.FilePairAttrs) (links links2 : List FFS.SyncOperation)
    (folders : List FFS.FolderTree) :
    FFS.fileSpaceDelta ⟨.createNewLeft, l, r⟩ space =
      (space.1 + r, space.2) ∧
    FFS.fileSpaceDelta ⟨.createNewRight, l, r⟩ space =
      (space.1, space.2 + l) ∧
    FFS.fileSpaceDelta ⟨.deleteLeft, l, r⟩ space =
      (space.1 - l, space.2) ∧
    FFS.fileSpaceDelta ⟨.deleteRight, l, r⟩ space =
      (space.1, space.2 - r) ∧
    FFS.fileSpaceDelta ⟨.overwriteLeft, l, r⟩ space =
      (space.1 - l + r, space.2) ∧
    FFS.fileSpaceDelta ⟨.overwriteRight, l, r⟩ space =
      (space.1, space.2 - r + l) ∧
    (∀ o : FFS.SyncOperation, o ≠ .createNewLeft → o ≠ .createNewRight →
      o ≠ .deleteLeft → o ≠ .deleteRight → o ≠ .overwriteLeft →
      o ≠ .overwriteRight → FFS.fileSpaceDelta ⟨o, l, r⟩ space = space) ∧
    FFS.minimumDiskSpaceTree (.mk op files links folders) space =
      FFS.minimumDiskSpaceTree (.mk op2 files links2 folders) space := by
  refine ⟨rfl, rfl, rfl, rfl, rfl, rfl, ?_, ?_⟩
  · intro o h1 h2 h3 h4 h5 h6
    cases o <;> simp_all [FFS.fileSpaceDelta]
  · simp [FFS.minimumDiskSpaceTree]

/-- C9 witness: a `MOVE_LEFT_TO` file contributes nothing, and symlinks and
the folder's own operation do not change the estimate, checked on a
concrete one-file tree. -/
theorem FFS.minimumDiskSpaceNeeded_accounting_witness :
    FFS.fileSpaceDelta ⟨.moveLeftTo, 5, 7⟩ ((0 : Int), (0 : Int)) =
      ((0 : Int), (0 : Int)) ∧
    FFS.minimumDiskSpaceTree
        (.mk .doNothing [⟨.createNewLeft, 0, 7⟩] [] []) ((0 : Int), (0 : Int)) =
      FFS.minimumDiskSpaceTree
        (.mk .deleteLeft [⟨.createNewLeft, 0, 7⟩] [.deleteRight] [])
        ((0 : Int), (0 : Int)) :=
  ⟨(FFS.minimumDiskSpaceNeeded_accounting ((0 : Int), (0 : Int)) 5 7
      .doNothing .deleteLeft [⟨.createNewLeft, 0, 7⟩] [] [.deleteRight]
      []).2.2.2.2.2.2.1 .moveLeftTo (by decide) (by decide) (by decide)
      (by decide) (by decide) (by decide),
   (FFS.minimumDiskSpaceNeeded_accounting ((0 : Int), (0 : Int)) 5 7
      .doNothing .deleteLeft [⟨.createNewLeft, 0, 7⟩] [] [.deleteRight]
      []).2.2.2.2.2.2.2⟩

/-- C7 witness: concrete removals — a versioned file deletion with two I/O
byte callbacks and a versioned symlink deletion — each report the single
`(+1, 0)` event. -/
theorem FFS.removal_reports_one_item_delta_witness :
    (FFS.removeFileDeltas .versioning ("a.txt".toList) [3, 4] false).count
        ((1 : Int), (0 : Int)) = 1 ∧
    (FFS.removeLinkDeltas .versioning false).count
        ((1 : Int), (0 : Int)) = 1 :=
  ⟨(FFS.removal_reports_one_item_delta .versioning ("a.txt".toList)
      [3, 4] false).1,
   (FFS.removal_reports_one_item_delta .versioning ("a.txt".toList)
      [3, 4] false).2.2.1⟩
